import Mathlib

/- Shallow embedding of the HPy call-trace instrumentation layer of
graalpython, file
src/graalpython/com.oracle.graal.python.jni/src/trace/trace_ctx.c.
We model the POSIX (non-_WIN32) compilation branch: timestamps are
`struct timespec` values (seconds + nanoseconds), the clock-status type
is the `int` returned by `clock_gettime` (0 on success, -1 on failure).
C `long`/`time_t` arithmetic is embedded as `Int` (the values involved
never approach the 64-bit range in the claims considered). -/

/-- Modelled from the spec: `FREQ_NSEC` is defined in `trace_internal.h`,
which is not among the sources. The spec fixes a nanosecond-resolution
Duration whose fine unit is corrected "by adding a full period before
subtracting"; the full period of a nanosecond count within one second is
10^9 nanoseconds. -/
def FREQ_NSEC : Int := 1000000000

/-- The `_HPyTime_t` of the POSIX branch: a `struct timespec` with a
seconds component `tv_sec` and a nanoseconds component `tv_nsec`. -/
structure HPyTime where
  tv_sec : Int
  tv_nsec : Int
deriving DecidableEq, Repr

/-- Embedding of `update_duration` (trace_ctx.c lines 78-99, POSIX
branch). The C function mutates `*res` in place; the embedding returns
the new value of `*res`. `tstart` and `tend` stand for the C parameters
`start` and `end`. -/
def update_duration (res tstart tend : HPyTime) : HPyTime :=
  if tend.tv_nsec < tstart.tv_nsec then
    { tv_sec := res.tv_sec + (tend.tv_sec - tstart.tv_sec - 1),
      tv_nsec := res.tv_nsec + (tend.tv_nsec - tstart.tv_nsec + FREQ_NSEC) }
  else
    { tv_sec := res.tv_sec + (tend.tv_sec - tstart.tv_sec),
      tv_nsec := res.tv_nsec + (tend.tv_nsec - tstart.tv_nsec) }

/-- Total length of a duration value expressed in nanoseconds. -/
def duration_nsec (t : HPyTime) : Int :=
  t.tv_sec * FREQ_NSEC + t.tv_nsec

/-- C1 counterexample: accumulating the durations (0s,999999999ns) and
(1s,1ns) into a zero-initialized total via `update_duration` does NOT
yield the normalized pair (2s,0ns): `update_duration` never carries the
accumulated nanosecond component of the total into the seconds
component, so the total ends as (1s,1000000000ns). -/
theorem C1_counterexample :
    update_duration (update_duration ⟨0, 0⟩ ⟨0, 0⟩ ⟨0, 999999999⟩) ⟨0, 0⟩ ⟨1, 1⟩ ≠
      (⟨2, 0⟩ : HPyTime) := by
  decide

/-- C1 amended: accumulating the durations (0s,999999999ns) and (1s,1ns)
into a zero-initialized total via `update_duration` yields the
un-normalized total (1s,1000000000ns), which denotes the same length of
time as (2s,0ns) (both equal 2·10^9 nanoseconds) but is not carried into
normalized form. -/
theorem C1_unnormalized_total :
    update_duration (update_duration ⟨0, 0⟩ ⟨0, 0⟩ ⟨0, 999999999⟩) ⟨0, 0⟩ ⟨1, 1⟩ =
      (⟨1, 1000000000⟩ : HPyTime) ∧
    duration_nsec ⟨1, 1000000000⟩ = duration_nsec ⟨2, 0⟩ := by
  constructor
  · decide
  · decide

/-- C2: for every running total and every pair of well-formed timestamps
with `tend ≥ tstart` (lexicographically on seconds then nanoseconds,
which in the borrow case `tend.tv_nsec < tstart.tv_nsec` forces
`tend.tv_sec > tstart.tv_sec`), `update_duration` leaves both components
of the total at or above their pre-call values, and the two summands it
adds to the components (the intermediate values of the computation) are
both non-negative in either branch. -/
theorem C2_update_duration_monotone (res tstart tend : HPyTime)
    (h1 : 0 ≤ tstart.tv_nsec) (h2 : tstart.tv_nsec < FREQ_NSEC)
    (h3 : 0 ≤ tend.tv_nsec) (h4 : tend.tv_nsec < FREQ_NSEC)
    (h5 : tstart.tv_sec < tend.tv_sec ∨
      (tstart.tv_sec = tend.tv_sec ∧ tstart.tv_nsec ≤ tend.tv_nsec)) :
    res.tv_sec ≤ (update_duration res tstart tend).tv_sec ∧
    res.tv_nsec ≤ (update_duration res tstart tend).tv_nsec ∧
    (tend.tv_nsec < tstart.tv_nsec →
      0 ≤ tend.tv_sec - tstart.tv_sec - 1 ∧
      0 ≤ tend.tv_nsec - tstart.tv_nsec + FREQ_NSEC) ∧
    (¬ tend.tv_nsec < tstart.tv_nsec →
      0 ≤ tend.tv_sec - tstart.tv_sec ∧
      0 ≤ tend.tv_nsec - tstart.tv_nsec) := by
  unfold update_duration FREQ_NSEC at *
  by_cases hb : tend.tv_nsec < tstart.tv_nsec <;> simp [hb] <;> omega

/-- C2 witness: instantiation of `C2_update_duration_monotone` at the
total (3s,5ns), start (1s,7ns), end (2s,4ns) (a borrow case). -/
theorem C2_witness :
    (3 : Int) ≤ (update_duration ⟨3, 5⟩ ⟨1, 7⟩ ⟨2, 4⟩).tv_sec ∧
    (5 : Int) ≤ (update_duration ⟨3, 5⟩ ⟨1, 7⟩ ⟨2, 4⟩).tv_nsec ∧
    ((4 : Int) < 7 → (0 : Int) ≤ 2 - 1 - 1 ∧ (0 : Int) ≤ 4 - 7 + FREQ_NSEC) ∧
    (¬ (4 : Int) < 7 → (0 : Int) ≤ 2 - 1 ∧ (0 : Int) ≤ 4 - 7) :=
  C2_update_duration_monotone ⟨3, 5⟩ ⟨1, 7⟩ ⟨2, 4⟩ (by decide) (by decide)
    (by decide) (by decide) (Or.inl (by decide))

/-- HPy values that this translation unit ever creates: the name string
built by `HPyUnicode_FromString` and the argument tuple built by
`HPyTuple_FromArray`. -/
inductive HPyVal where
  | vstr : String → HPyVal
  | vtuple : List HPyVal → HPyVal

mutual

/-- Structural equality test on `HPyVal` (stands in for handle identity:
each constructor application is a freshly created object in the C code,
and within one call the two transient values always differ in
constructor). -/
def HPyVal.beq : HPyVal → HPyVal → Bool
  | .vstr a, .vstr b => a == b
  | .vtuple a, .vtuple b => HPyVal.beqList a b
  | _, _ => false

/-- Pointwise `HPyVal.beq` on lists. -/
def HPyVal.beqList : List HPyVal → List HPyVal → Bool
  | [], [] => true
  | x :: xs, y :: ys => HPyVal.beq x y && HPyVal.beqList xs ys
  | _, _ => false

end

instance instBEqHPyVal : BEq HPyVal := ⟨HPyVal.beq⟩

@[simp] theorem beq_vstr_vstr (a b : String) :
    (HPyVal.vstr a == HPyVal.vstr b) = (a == b) := rfl

@[simp] theorem beq_vtuple_vstr (l : List HPyVal) (b : String) :
    (HPyVal.vtuple l == HPyVal.vstr b) = false := rfl

@[simp] theorem beq_vstr_vtuple (a : String) (l : List HPyVal) :
    (HPyVal.vstr a == HPyVal.vtuple l) = false := rfl

@[simp] theorem beq_vtuple_vtuple (l m : List HPyVal) :
    (HPyVal.vtuple l == HPyVal.vtuple m) = HPyVal.beqList l m := rfl

@[simp] theorem beqList_nil_nil : HPyVal.beqList [] [] = true := rfl

@[simp] theorem beqList_cons_cons (x y : HPyVal) (xs ys : List HPyVal) :
    HPyVal.beqList (x :: xs) (y :: ys) =
      (HPyVal.beq x y && HPyVal.beqList xs ys) := rfl

@[simp] theorem hpyval_beq_eq (x y : HPyVal) : HPyVal.beq x y = (x == y) := rfl

/-- One observer invocation performed through `HPy_CallTupleDict`:
the callable, the positional-argument tuple, and the keyword dictionary
(`none` embeds the C argument `HPy_NULL`, i.e. no keyword arguments). -/
structure CallEvent where
  func : Nat
  args : HPyVal
  kwargs : Option HPyVal

/-- Modelled from the spec: the services of the underlying context `uctx`
and of the platform that trace_ctx.c calls into but whose definitions
(HPy runtime, libc) are not among the sources. `get_func_name` is the
external OperationCatalog lookup `hpy_trace_get_func_name` (pure and
total over valid ids per the spec); `name_ok` / `tuple_ok` say whether
`HPyUnicode_FromString` / `HPyTuple_FromArray` succeed; `call_result`
gives the value returned by `HPy_CallTupleDict` for a callable and an
argument tuple (`none` embeds a null result); `malloc_ok` says whether
`malloc` succeeds; `num_ops` is the size of the OperationId space; and
`counter_freq` is the clock resolution captured by `clock_getres`. -/
structure Env where
  get_func_name : Nat → String
  name_ok : Bool
  tuple_ok : Bool
  call_result : Nat → HPyVal → Option HPyVal
  malloc_ok : Bool
  num_ops : Nat
  counter_freq : HPyTime

/-- Observable effect state threaded through the embedded functions:
the currently open transient HPy handles, the observer invocations
performed, the text written to stdout by `printf`, and the errors
reported on the underlying context (`HPyErr_NoMemory`). -/
structure EffState where
  openHandles : List HPyVal
  calls : List CallEvent
  printed : List String
  errors : List String

/-- Result of an embedded C function: either a normal return or a call
to `HPy_FatalError` with the given message (which in C aborts the
process, so nothing executes after it). -/
inductive Outcome (α : Type) where
  | ok : α → Outcome α
  | fatal : String → Outcome α

/-- The `HPyTraceInfo` record of trace_internal.h (fields as used by
trace_ctx.c): the underlying context (an opaque id here), the captured
clock resolution, the per-operation call counters and cumulative
durations, and the optional enter/exit observer callables (`none` embeds
`HPy_NULL`, i.e. no observer installed; callables are opaque ids). -/
structure HPyTraceInfo where
  uctx : Nat
  counter_freq : HPyTime
  call_counts : List Nat
  durations : List HPyTime
  on_enter_func : Option Nat
  on_exit_func : Option Nat

/-- The trace context `tctx` as trace_ctx.c sees it: only its `_private`
slot, which holds the installed `HPyTraceInfo` once initialized. -/
structure HPyContextT where
  _private : Option HPyTraceInfo

/-- Modelled from the spec: `HPyUnicode_FromString` of the HPy runtime
(not among the sources) builds a string value from the catalog name; on
success it returns a fresh open handle, on failure a null handle. -/
def HPyUnicode_FromString (env : Env) (eff : EffState) (s : String) :
    Option HPyVal × EffState :=
  if env.name_ok then
    (some (HPyVal.vstr s),
     { eff with openHandles := HPyVal.vstr s :: eff.openHandles })
  else (none, eff)

/-- Modelled from the spec: `HPyTuple_FromArray` of the HPy runtime (not
among the sources) builds a tuple from an array of values; on success it
returns a fresh open handle, on failure a null handle. -/
def HPyTuple_FromArray (env : Env) (eff : EffState) (items : List HPyVal) :
    Option HPyVal × EffState :=
  if env.tuple_ok then
    (some (HPyVal.vtuple items),
     { eff with openHandles := HPyVal.vtuple items :: eff.openHandles })
  else (none, eff)

/-- Modelled from the spec: `HPy_Close` of the HPy runtime (not among
the sources) releases an open handle. -/
def HPy_Close (eff : EffState) (h : HPyVal) : EffState :=
  { eff with openHandles := eff.openHandles.erase h }

/-- Modelled from the spec: `HPy_CallTupleDict` of the HPy runtime (not
among the sources) invokes a callable with a positional-argument tuple
and a keyword dictionary and returns the callable's result (`none`
embeds a null result, meaning the callable failed). The invocation is
recorded as a `CallEvent`. The result value's own handle lifecycle is
outside the scope of the modelled claims and is not tracked. -/
def HPy_CallTupleDict (env : Env) (eff : EffState) (f : Nat) (args : HPyVal)
    (kw : Option HPyVal) : Option HPyVal × EffState :=
  (env.call_result f args, { eff with calls := eff.calls ++ [⟨f, args, kw⟩] })

/-- Modelled from the spec: `HPyErr_NoMemory` of the HPy runtime (not
among the sources) reports an out-of-memory error through the underlying
context's error-reporting channel. -/
def HPyErr_NoMemory (eff : EffState) : EffState :=
  { eff with errors := eff.errors ++ ["MemoryError"] }

/-- Output of `printf` + `fflush(stdout)`. -/
def printf_out (eff : EffState) (s : String) : EffState :=
  { eff with printed := eff.printed ++ [s] }

/-- Embedding of `create_trace_func_args` (trace_ctx.c lines 63-76):
build the name string for operation `id`, wrap it in a 1-tuple, close
the name string and return the tuple; if either construction fails, call
`HPy_FatalError` (the C function's `return HPy_NULL` after the fatal
call is unreachable, so the embedding stops at the fatal outcome). -/
def create_trace_func_args (env : Env) (eff : EffState) (id : Nat) :
    Outcome HPyVal × EffState :=
  match HPyUnicode_FromString env eff (env.get_func_name id) with
  | (none, eff1) =>
      (Outcome.fatal "could not create arguments for user trace function", eff1)
  | (some h_name, eff1) =>
      match HPyTuple_FromArray env eff1 [h_name] with
      | (none, eff2) =>
          (Outcome.fatal "could not create arguments for user trace function", eff2)
      | (some h_args, eff2) => (Outcome.ok h_args, HPy_Close eff2 h_name)

/-- The observer-invocation block that trace_ctx.c repeats verbatim in
`hpy_trace_on_enter` (lines 108-115) and `hpy_trace_on_exit` (lines
139-146), differing only in the fatal message: build the argument tuple,
invoke the callable `f` with it and no keyword arguments, close the
tuple, and treat a null result as fatal with message `fail_msg`. -/
def invoke_trace_func (env : Env) (eff : EffState) (id : Nat) (f : Nat)
    (fail_msg : String) : Outcome Unit × EffState :=
  match create_trace_func_args env eff id with
  | (Outcome.fatal msg, eff1) => (Outcome.fatal msg, eff1)
  | (Outcome.ok args, eff1) =>
      let r := HPy_CallTupleDict env eff1 f args none
      let eff2 := HPy_Close r.2 args
      match r.1 with
      | none => (Outcome.fatal fail_msg, eff2)
      | some _ => (Outcome.ok (), eff2)

/-- Increment of `call_counts[id]++` on the counter array. -/
def incAt (xs : List Nat) (i : Nat) : List Nat :=
  xs.set i (xs.getD i 0 + 1)

/-- Embedding of `hpy_trace_on_enter` (trace_ctx.c lines 101-118): bump
`call_counts[id]`, then, if an on-enter observer is installed, build the
argument tuple and invoke it, treating construction failure or a null
observer result as fatal. The C function returns the `HPyTraceInfo`
pointer; the embedding returns the (possibly fatal) outcome together
with the updated info and effect state. -/
def hpy_trace_on_enter (env : Env) (info : HPyTraceInfo) (eff : EffState)
    (id : Nat) : Outcome Unit × HPyTraceInfo × EffState :=
  let info1 := { info with call_counts := incAt info.call_counts id }
  match info1.on_enter_func with
  | none => (Outcome.ok (), info1, eff)
  | some f =>
      let r := invoke_trace_func env eff id f
        "error when executing on-enter trace function"
      (r.1, info1, r.2)

/-- Embedding of the `CLOCK_FAILED` macro, POSIX branch: the two
`clock_gettime` return values are summed and the sum is used as a C
truth value. -/
def CLOCK_FAILED (r0 r1 : Int) : Bool := r0 + r1 != 0

/-- Embedding of `hpy_trace_on_exit` (trace_ctx.c lines 126-147): if
either bracketing clock read failed, print a diagnostic naming the
operation and call `HPy_FatalError`; otherwise accumulate the elapsed
time into `durations[id]` and then, if an on-exit observer is installed,
build the argument tuple and invoke it, treating construction failure or
a null observer result as fatal. -/
def hpy_trace_on_exit (env : Env) (info : HPyTraceInfo) (eff : EffState)
    (id : Nat) (r0 r1 : Int) (ts_start ts_end : HPyTime) :
    Outcome Unit × HPyTraceInfo × EffState :=
  if CLOCK_FAILED r0 r1 then
    let eff1 := printf_out eff
      ("Could not get monotonic clock in " ++ env.get_func_name id ++ "\n")
    (Outcome.fatal "could not get monotonic clock123", info, eff1)
  else
    let info1 := { info with
      durations := info.durations.set id
        (update_duration (info.durations.getD id ⟨0, 0⟩) ts_start ts_end) }
    match info1.on_exit_func with
    | none => (Outcome.ok (), info1, eff)
    | some f =>
        let r := invoke_trace_func env eff id f
          "error when executing on-exit trace function"
        (r.1, info1, r.2)

/-- Modelled from the spec: `trace_ctx_init_info` comes from the
generated header `autogen_trace_ctx_init.h`, which is not among the
sources. Per the spec, initialization zero-initializes the
counter/duration storage sized to the full OperationId space, records
the underlying context, and installs absent observer hooks. The clock
resolution `freq` has already been captured into the record by
`clock_getres` before this runs. -/
def trace_ctx_init_info (freq : HPyTime) (uctx : Nat) (nops : Nat) :
    HPyTraceInfo :=
  { uctx := uctx, counter_freq := freq,
    call_counts := List.replicate nops 0,
    durations := List.replicate nops ⟨0, 0⟩,
    on_enter_func := none, on_exit_func := none }

/-- Embedding of `hpy_trace_ctx_init` (trace_ctx.c lines 32-55): if the
`_private` slot is already set, return success without touching anything
(the C code only asserts the sanity check `get_info(tctx)->uctx == uctx`,
compiled out in release builds); otherwise allocate the `HPyTraceInfo`
record (reporting out-of-memory and returning -1 on allocation failure),
capture the clock resolution, initialize the record and install it.
`trace_ctx_init_fields` only fills the trace wrappers into `tctx` and is
not part of the modelled state. -/
def hpy_trace_ctx_init (env : Env) (tctx : HPyContextT) (uctx : Nat)
    (eff : EffState) : Int × HPyContextT × EffState :=
  match tctx._private with
  | some _ => (0, tctx, eff)
  | none =>
      if env.malloc_ok then
        (0, { _private := some (trace_ctx_init_info env.counter_freq uctx env.num_ops) },
         eff)
      else
        (-1, tctx, HPyErr_NoMemory eff)

/-- N successive `hpy_trace_on_enter` calls for the same operation id,
threading the info and effect state (on a freshly initialized context no
observer is installed, so no call in the sequence is fatal). -/
def iter_on_enter (env : Env) (id : Nat) :
    Nat → HPyTraceInfo → EffState → HPyTraceInfo × EffState
  | 0, info, eff => (info, eff)
  | n + 1, info, eff =>
      let r := hpy_trace_on_enter env info eff id
      iter_on_enter env id n r.2.1 r.2.2

/-- Sample environment for witnesses: every external HPy service
succeeds, the catalog names every operation "HPy_Dup", the OperationId
space has 3 operations, and the clock resolution is 1ns. -/
def env0 : Env :=
  { get_func_name := fun _ => "HPy_Dup", name_ok := true, tuple_ok := true,
    call_result := fun _ _ => some (HPyVal.vstr "ok"), malloc_ok := true,
    num_ops := 3, counter_freq := ⟨0, 1⟩ }

/-- Sample environment in which every observer invocation returns a null
result. -/
def env_obs_fail : Env := { env0 with call_result := fun _ _ => none }

/-- Sample environment in which `HPyTuple_FromArray` fails. -/
def env_tuple_fail : Env := { env0 with tuple_ok := false }

/-- Sample environment in which `malloc` fails. -/
def env_nomem : Env := { env0 with malloc_ok := false }

/-- Empty effect state. -/
def eff0 : EffState := { openHandles := [], calls := [], printed := [], errors := [] }

/-- A freshly initialized trace record for underlying context 7 with 3
operations. -/
def info0 : HPyTraceInfo := trace_ctx_init_info ⟨0, 1⟩ 7 3

/-- `info0` with an on-enter observer (callable id 5) installed. -/
def info_enter_obs : HPyTraceInfo := { info0 with on_enter_func := some 5 }

/-- `info0` with an on-exit observer (callable id 6) installed. -/
def info_exit_obs : HPyTraceInfo := { info0 with on_exit_func := some 6 }

/-- `info0` with both observers installed. -/
def info_both_obs : HPyTraceInfo :=
  { info0 with on_enter_func := some 5, on_exit_func := some 6 }

/-- Helper: `List.set` at an in-range index followed by `getD` at the
same index reads back the written value. -/
theorem getD_set_self {α : Type} (xs : List α) (i : Nat) (v d : α)
    (h : i < xs.length) : (xs.set i v).getD i d = v := by
  induction xs generalizing i with
  | nil => simp at h
  | cons x xs ih =>
      cases i with
      | zero => rfl
      | succ m => exact ih m (Nat.lt_of_succ_lt_succ h)

/-- Helper: `incAt` preserves the length of the counter array. -/
theorem length_incAt (xs : List Nat) (i : Nat) :
    (incAt xs i).length = xs.length := by
  simp [incAt]

/-- Helper: at an in-range index, `incAt` bumps the read-back counter by
exactly one. -/
theorem getD_incAt_eq (xs : List Nat) (i : Nat) (h : i < xs.length) :
    (incAt xs i).getD i 0 = xs.getD i 0 + 1 := by
  induction xs generalizing i with
  | nil => simp at h
  | cons x xs ih =>
      cases i with
      | zero => rfl
      | succ m => exact ih m (Nat.lt_of_succ_lt_succ h)

/-- Helper: `incAt` never decreases any counter. -/
theorem getD_incAt_le (xs : List Nat) (i j : Nat) :
    xs.getD j 0 ≤ (incAt xs i).getD j 0 := by
  induction xs generalizing i j with
  | nil => simp [incAt]
  | cons x xs ih =>
      cases i with
      | zero =>
          cases j with
          | zero => exact Nat.le_succ x
          | succ k => exact Nat.le_refl _
      | succ m =>
          cases j with
          | zero => exact Nat.le_refl _
          | succ k => exact ih m k

/-- Helper: reading a replicated list returns the replicated element. -/
theorem getD_replicate_self {α : Type} (n i : Nat) (a : α) :
    (List.replicate n a).getD i a = a := by
  induction n generalizing i with
  | zero => rfl
  | succ m ih =>
      cases i with
      | zero => rfl
      | succ k => exact ih k

/-- Helper: whatever the observer configuration and outcome,
`hpy_trace_on_enter` produces exactly the info record with
`call_counts[id]` bumped. -/
theorem on_enter_info (env : Env) (info : HPyTraceInfo) (eff : EffState)
    (id : Nat) :
    (hpy_trace_on_enter env info eff id).2.1 =
      { info with call_counts := incAt info.call_counts id } := by
  unfold hpy_trace_on_enter
  cases h : info.on_enter_func <;> simp [h]

/-- Helper: with no on-enter observer installed, `hpy_trace_on_enter`
returns normally, bumps the counter and leaves the effect state
untouched. -/
theorem on_enter_none (env : Env) (info : HPyTraceInfo) (eff : EffState)
    (id : Nat) (hobs : info.on_enter_func = none) :
    hpy_trace_on_enter env info eff id =
      (Outcome.ok (), { info with call_counts := incAt info.call_counts id },
       eff) := by
  unfold hpy_trace_on_enter
  simp [hobs]

/-- Helper: iterating `hpy_trace_on_enter` on an observer-free context
adds exactly the number of iterations to the chosen counter. -/
theorem iter_on_enter_count (env : Env) (id : Nat) (N : Nat) :
    ∀ (info : HPyTraceInfo) (eff : EffState), info.on_enter_func = none →
      id < info.call_counts.length →
      (iter_on_enter env id N info eff).1.call_counts.getD id 0 =
        info.call_counts.getD id 0 + N := by
  induction N with
  | zero => intro info eff _ _; simp [iter_on_enter]
  | succ n ih =>
      intro info eff hobs hlen
      rw [iter_on_enter, on_enter_none env info eff id hobs]
      have h1 : ({ info with call_counts := incAt info.call_counts id }).on_enter_func = none := hobs
      have h2 : id < ({ info with call_counts := incAt info.call_counts id }).call_counts.length := by
        simpa [length_incAt] using hlen
      rw [ih _ _ h1 h2]
      show (incAt info.call_counts id).getD id 0 + n =
        info.call_counts.getD id 0 + (n + 1)
      rw [getD_incAt_eq _ _ hlen]
      omega

/-- C3: whenever either bracketing clock read failed (each
`clock_gettime` status is 0 on success and -1 on failure), the embedded
`hpy_trace_on_exit` takes the fatal-error path with the fatal message of
the source, prints a diagnostic naming the failing operation, and leaves
the whole `HPyTraceInfo` record — in particular `durations[id]` —
unmodified: the accumulation never runs after a failed clock read. -/
theorem C3_clock_failure_fatal (env : Env) (info : HPyTraceInfo)
    (eff : EffState) (id : Nat) (r0 r1 : Int) (ts_start ts_end : HPyTime)
    (h0 : r0 = 0 ∨ r0 = -1) (h1 : r1 = 0 ∨ r1 = -1)
    (hf : r0 = -1 ∨ r1 = -1) :
    (hpy_trace_on_exit env info eff id r0 r1 ts_start ts_end).1 =
      Outcome.fatal "could not get monotonic clock123" ∧
    (hpy_trace_on_exit env info eff id r0 r1 ts_start ts_end).2.1 = info ∧
    ("Could not get monotonic clock in " ++ env.get_func_name id ++ "\n") ∈
      (hpy_trace_on_exit env info eff id r0 r1 ts_start ts_end).2.2.printed := by
  have hc : CLOCK_FAILED r0 r1 = true := by
    rcases h0 with h0 | h0 <;> rcases h1 with h1 | h1 <;> subst h0 <;> subst h1 <;>
      first
        | (exfalso; rcases hf with hf | hf <;> exact absurd hf (by decide))
        | decide
  unfold hpy_trace_on_exit
  simp [hc, printf_out]

/-- C3 witness: instantiation of `C3_clock_failure_fatal` with a failed
start-side clock read. -/
theorem C3_witness :
    (hpy_trace_on_exit env0 info0 eff0 0 (-1) 0 ⟨0, 0⟩ ⟨0, 1⟩).1 =
      Outcome.fatal "could not get monotonic clock123" ∧
    (hpy_trace_on_exit env0 info0 eff0 0 (-1) 0 ⟨0, 0⟩ ⟨0, 1⟩).2.1 = info0 ∧
    ("Could not get monotonic clock in " ++ env0.get_func_name 0 ++ "\n") ∈
      (hpy_trace_on_exit env0 info0 eff0 0 (-1) 0 ⟨0, 0⟩ ⟨0, 1⟩).2.2.printed :=
  C3_clock_failure_fatal env0 info0 eff0 0 (-1) 0 ⟨0, 0⟩ ⟨0, 1⟩
    (Or.inr rfl) (Or.inl rfl) (Or.inl rfl)

/-- C4: starting from the trace record installed by a successful
`hpy_trace_ctx_init` on an uninitialized context (fresh, zeroed, no
observers) and performing N `hpy_trace_on_enter` calls for a valid
operation id with no re-initialization, `call_counts[id]` equals N; and
no `hpy_trace_on_enter` call — from any state, any observer
configuration, any outcome — ever decreases any counter. -/
theorem C4_counter_accumulation (env : Env) (uctx : Nat) (eff : EffState)
    (id N : Nat) (hmalloc : env.malloc_ok = true) (hid : id < env.num_ops) :
    (∀ fresh, (hpy_trace_ctx_init env ⟨none⟩ uctx eff).2.1._private = some fresh →
      ∀ eff1, (iter_on_enter env id N fresh eff1).1.call_counts.getD id 0 = N) ∧
    (∀ info eff2 j, info.call_counts.getD j 0 ≤
      (hpy_trace_on_enter env info eff2 id).2.1.call_counts.getD j 0) := by
  constructor
  · intro fresh hfresh eff1
    have hfr : fresh = trace_ctx_init_info env.counter_freq uctx env.num_ops := by
      simp [hpy_trace_ctx_init, hmalloc] at hfresh
      exact hfresh.symm
    subst hfr
    have hobs : (trace_ctx_init_info env.counter_freq uctx env.num_ops).on_enter_func = none := rfl
    have hlen : id < (trace_ctx_init_info env.counter_freq uctx env.num_ops).call_counts.length := by
      simpa [trace_ctx_init_info] using hid
    rw [iter_on_enter_count env id N _ _ hobs hlen]
    show (List.replicate env.num_ops 0).getD id 0 + N = N
    rw [getD_replicate_self]
    exact Nat.zero_add N
  · intro info eff2 j
    rw [on_enter_info]
    exact getD_incAt_le info.call_counts id j

/-- C4 witness: instantiation of `C4_counter_accumulation` with `env0`,
underlying context 7, operation id 1 and N = 4. -/
theorem C4_witness :
    (∀ fresh, (hpy_trace_ctx_init env0 ⟨none⟩ 7 eff0).2.1._private = some fresh →
      ∀ eff1, (iter_on_enter env0 1 4 fresh eff1).1.call_counts.getD 1 0 = 4) ∧
    (∀ info eff2 j, info.call_counts.getD j 0 ≤
      (hpy_trace_on_enter env0 info eff2 1).2.1.call_counts.getD j 0) :=
  C4_counter_accumulation env0 7 eff0 1 4 rfl (by decide)

/-- C5: on an uninitialized context, a successful `hpy_trace_ctx_init`
followed by a second `hpy_trace_ctx_init` with the same underlying
context returns success both times, and the second call changes nothing:
the installed record — counters and durations included — and the effect
state are exactly those left by the first call (no reset, no
reallocation). -/
theorem C5_idempotent_init (env : Env) (uctx : Nat) (eff : EffState)
    (hmalloc : env.malloc_ok = true) :
    (hpy_trace_ctx_init env ⟨none⟩ uctx eff).1 = 0 ∧
    (hpy_trace_ctx_init env (hpy_trace_ctx_init env ⟨none⟩ uctx eff).2.1 uctx
        (hpy_trace_ctx_init env ⟨none⟩ uctx eff).2.2).1 = 0 ∧
    (hpy_trace_ctx_init env (hpy_trace_ctx_init env ⟨none⟩ uctx eff).2.1 uctx
        (hpy_trace_ctx_init env ⟨none⟩ uctx eff).2.2).2.1 =
      (hpy_trace_ctx_init env ⟨none⟩ uctx eff).2.1 ∧
    (hpy_trace_ctx_init env (hpy_trace_ctx_init env ⟨none⟩ uctx eff).2.1 uctx
        (hpy_trace_ctx_init env ⟨none⟩ uctx eff).2.2).2.2 =
      (hpy_trace_ctx_init env ⟨none⟩ uctx eff).2.2 := by
  simp [hpy_trace_ctx_init, hmalloc]

/-- C5 witness: instantiation of `C5_idempotent_init` at `env0`. -/
theorem C5_witness :
    (hpy_trace_ctx_init env0 ⟨none⟩ 7 eff0).1 = 0 ∧
    (hpy_trace_ctx_init env0 (hpy_trace_ctx_init env0 ⟨none⟩ 7 eff0).2.1 7
        (hpy_trace_ctx_init env0 ⟨none⟩ 7 eff0).2.2).1 = 0 ∧
    (hpy_trace_ctx_init env0 (hpy_trace_ctx_init env0 ⟨none⟩ 7 eff0).2.1 7
        (hpy_trace_ctx_init env0 ⟨none⟩ 7 eff0).2.2).2.1 =
      (hpy_trace_ctx_init env0 ⟨none⟩ 7 eff0).2.1 ∧
    (hpy_trace_ctx_init env0 (hpy_trace_ctx_init env0 ⟨none⟩ 7 eff0).2.1 7
        (hpy_trace_ctx_init env0 ⟨none⟩ 7 eff0).2.2).2.2 =
      (hpy_trace_ctx_init env0 ⟨none⟩ 7 eff0).2.2 :=
  C5_idempotent_init env0 7 eff0 rfl

/-- C8: when allocation of the trace record fails during initialization
of an uninitialized context, an out-of-memory error is reported through
the underlying context's error channel, `hpy_trace_ctx_init` returns -1,
the `_private` slot remains unset, and nothing else in the effect state
is modified. -/
theorem C8_alloc_failure (env : Env) (uctx : Nat) (eff : EffState)
    (hmalloc : env.malloc_ok = false) :
    (hpy_trace_ctx_init env ⟨none⟩ uctx eff).1 = -1 ∧
    (hpy_trace_ctx_init env ⟨none⟩ uctx eff).2.1._private = none ∧
    (hpy_trace_ctx_init env ⟨none⟩ uctx eff).2.2 =
      { eff with errors := eff.errors ++ ["MemoryError"] } := by
  simp [hpy_trace_ctx_init, hmalloc, HPyErr_NoMemory]

/-- C8 witness: instantiation of `C8_alloc_failure` at `env_nomem`. -/
theorem C8_witness :
    (hpy_trace_ctx_init env_nomem ⟨none⟩ 7 eff0).1 = -1 ∧
    (hpy_trace_ctx_init env_nomem ⟨none⟩ 7 eff0).2.1._private = none ∧
    (hpy_trace_ctx_init env_nomem ⟨none⟩ 7 eff0).2.2 =
      { eff0 with errors := eff0.errors ++ ["MemoryError"] } :=
  C8_alloc_failure env_nomem 7 eff0 rfl

/-- Helper: when both constructions succeed, `create_trace_func_args`
returns the 1-tuple of the operation's display name, and the only handle
it leaves open is the returned tuple itself (the transient name string
has been closed). -/
theorem create_args_ok (env : Env) (eff : EffState) (id : Nat)
    (hname : env.name_ok = true) (htuple : env.tuple_ok = true) :
    create_trace_func_args env eff id =
      (Outcome.ok (HPyVal.vtuple [HPyVal.vstr (env.get_func_name id)]),
       { eff with openHandles :=
          HPyVal.vtuple [HPyVal.vstr (env.get_func_name id)] ::
            eff.openHandles }) := by
  unfold create_trace_func_args HPyUnicode_FromString HPyTuple_FromArray HPy_Close
  simp [hname, htuple, List.erase_cons]

/-- Helper: when both constructions succeed, the observer-invocation
block records exactly one invocation of `f` with the 1-tuple of the
display name and no keyword arguments, restores the open-handle set, and
is fatal with `msg` exactly when the callable's result is null. -/
theorem invoke_trace_func_ok (env : Env) (eff : EffState) (id f : Nat)
    (msg : String) (hname : env.name_ok = true) (htuple : env.tuple_ok = true) :
    invoke_trace_func env eff id f msg =
      ((match env.call_result f
            (HPyVal.vtuple [HPyVal.vstr (env.get_func_name id)]) with
        | none => Outcome.fatal msg
        | some _ => Outcome.ok ()),
       { eff with calls := eff.calls ++
          [⟨f, HPyVal.vtuple [HPyVal.vstr (env.get_func_name id)], none⟩] }) := by
  unfold invoke_trace_func
  rw [create_args_ok env eff id hname htuple]
  unfold HPy_CallTupleDict HPy_Close
  cases h : env.call_result f (HPyVal.vtuple [HPyVal.vstr (env.get_func_name id)]) <;>
    simp [h, List.erase_cons]

/-- C6: with an on-enter observer installed and argument construction
succeeding, each `hpy_trace_on_enter` call records exactly one observer
invocation, whose positional-argument tuple is exactly the 1-tuple of
the display name of the operation and whose keyword dictionary is null;
and the counter increment happens whether or not an observer is
installed (and no invocation is recorded when none is installed). -/
theorem C6_observer_fanout (env : Env) (info : HPyTraceInfo) (eff : EffState)
    (id f : Nat) (hobs : info.on_enter_func = some f)
    (hname : env.name_ok = true) (htuple : env.tuple_ok = true) :
    (hpy_trace_on_enter env info eff id).2.2.calls =
      eff.calls ++
        [⟨f, HPyVal.vtuple [HPyVal.vstr (env.get_func_name id)], none⟩] ∧
    (hpy_trace_on_enter env info eff id).2.1.call_counts =
      incAt info.call_counts id ∧
    (∀ info2 eff2, (hpy_trace_on_enter env info2 eff2 id).2.1.call_counts =
      incAt info2.call_counts id) ∧
    (∀ info2 eff2, info2.on_enter_func = none →
      (hpy_trace_on_enter env info2 eff2 id).2.2.calls = eff2.calls) := by
  refine ⟨?_, ?_, ?_, ?_⟩
  · unfold hpy_trace_on_enter
    simp [hobs, invoke_trace_func_ok env eff id f _ hname htuple]
  · rw [on_enter_info]
  · intro info2 eff2
    rw [on_enter_info]
  · intro info2 eff2 h2
    rw [on_enter_none env info2 eff2 id h2]

/-- C6 witness: instantiation of `C6_observer_fanout` with the on-enter
observer (callable 5) installed in `info_enter_obs`. -/
theorem C6_witness :
    (hpy_trace_on_enter env0 info_enter_obs eff0 0).2.2.calls =
      eff0.calls ++
        [⟨5, HPyVal.vtuple [HPyVal.vstr (env0.get_func_name 0)], none⟩] ∧
    (hpy_trace_on_enter env0 info_enter_obs eff0 0).2.1.call_counts =
      incAt info_enter_obs.call_counts 0 ∧
    (∀ info2 eff2, (hpy_trace_on_enter env0 info2 eff2 0).2.1.call_counts =
      incAt info2.call_counts 0) ∧
    (∀ info2 eff2, info2.on_enter_func = none →
      (hpy_trace_on_enter env0 info2 eff2 0).2.2.calls = eff2.calls) :=
  C6_observer_fanout env0 info_enter_obs eff0 0 5 rfl rfl rfl

/-- C7: when an installed observer invocation returns a null result —
with argument construction succeeding and, on the exit side, both clock
reads successful — both `hpy_trace_on_enter` and `hpy_trace_on_exit`
escalate to the fatal-error path, and the two fatal messages distinguish
enter-time from exit-time observer failure. -/
theorem C7_observer_null_fatal (env : Env) (info : HPyTraceInfo)
    (eff : EffState) (id f g : Nat) (ts_start ts_end : HPyTime)
    (henter : info.on_enter_func = some f) (hexit : info.on_exit_func = some g)
    (hname : env.name_ok = true) (htuple : env.tuple_ok = true)
    (hfail_f : env.call_result f
      (HPyVal.vtuple [HPyVal.vstr (env.get_func_name id)]) = none)
    (hfail_g : env.call_result g
      (HPyVal.vtuple [HPyVal.vstr (env.get_func_name id)]) = none) :
    (hpy_trace_on_enter env info eff id).1 =
      Outcome.fatal "error when executing on-enter trace function" ∧
    (hpy_trace_on_exit env info eff id 0 0 ts_start ts_end).1 =
      Outcome.fatal "error when executing on-exit trace function" ∧
    "error when executing on-enter trace function" ≠
      "error when executing on-exit trace function" := by
  refine ⟨?_, ?_, by decide⟩
  · unfold hpy_trace_on_enter
    simp [henter, invoke_trace_func_ok env eff id f _ hname htuple, hfail_f]
  · unfold hpy_trace_on_exit
    simp [CLOCK_FAILED, hexit,
      invoke_trace_func_ok env eff id g _ hname htuple, hfail_g]

/-- C7 witness: instantiation of `C7_observer_null_fatal` in the
environment whose observers always return a null result, with both
observers installed. -/
theorem C7_witness :
    (hpy_trace_on_enter env_obs_fail info_both_obs eff0 0).1 =
      Outcome.fatal "error when executing on-enter trace function" ∧
    (hpy_trace_on_exit env_obs_fail info_both_obs eff0 0 0 0 ⟨0, 0⟩ ⟨0, 1⟩).1 =
      Outcome.fatal "error when executing on-exit trace function" ∧
    "error when executing on-enter trace function" ≠
      "error when executing on-exit trace function" :=
  C7_observer_null_fatal env_obs_fail info_both_obs eff0 0 5 6 ⟨0, 0⟩ ⟨0, 1⟩
    rfl rfl rfl rfl rfl rfl

/-- C9 counterexample: when the tuple construction inside
`create_trace_func_args` fails, the function escalates to the
fatal-error path while the transient name string is still an open
handle — it is NOT released before the escalation, contradicting the
claim that every transient resource is released on every path. -/
theorem C9_counterexample :
    (create_trace_func_args env_tuple_fail eff0 0).1 =
      Outcome.fatal "could not create arguments for user trace function" ∧
    (create_trace_func_args env_tuple_fail eff0 0).2.openHandles =
      [HPyVal.vstr "HPy_Dup"] ∧
    (create_trace_func_args env_tuple_fail eff0 0).2.openHandles ≠ [] := by
  refine ⟨rfl, rfl, ?_⟩
  simp [create_trace_func_args, HPyUnicode_FromString, HPyTuple_FromArray,
    env_tuple_fail, env0, eff0]

/-- C9 amended: on the normal-return path and on the observer-failure
path every transient resource created to build the observer argument
(the name string and the tuple wrapper) is released — the final
open-handle set equals the initial one — and when name-string creation
fails nothing was created; but on the path where tuple creation fails,
the name string is left open when escalating to the fatal-error path. -/
theorem C9_scoped_release (env : Env) (info : HPyTraceInfo) (eff : EffState)
    (id f : Nat) :
    (env.name_ok = true → env.tuple_ok = true → info.on_enter_func = some f →
      (hpy_trace_on_enter env info eff id).2.2.openHandles =
        eff.openHandles) ∧
    (env.name_ok = false →
      (create_trace_func_args env eff id).2.openHandles = eff.openHandles) ∧
    (env.name_ok = true → env.tuple_ok = false →
      (create_trace_func_args env eff id).2.openHandles =
        HPyVal.vstr (env.get_func_name id) :: eff.openHandles) := by
  refine ⟨?_, ?_, ?_⟩
  · intro hname htuple hobs
    unfold hpy_trace_on_enter
    simp [hobs, invoke_trace_func_ok env eff id f _ hname htuple]
  · intro hname
    unfold create_trace_func_args HPyUnicode_FromString
    simp [hname]
  · intro hname htuple
    unfold create_trace_func_args HPyUnicode_FromString HPyTuple_FromArray
    simp [hname, htuple]

/-- C9 witness: instantiation of the released-on-success part of
`C9_scoped_release` with the on-enter observer installed. -/
theorem C9_witness :
    (hpy_trace_on_enter env0 info_enter_obs eff0 0).2.2.openHandles =
      eff0.openHandles :=
  (C9_scoped_release env0 info_enter_obs eff0 0 5).1 rfl rfl rfl

/-- C10: in `hpy_trace_on_exit` with both clock reads successful and the
installed on-exit observer returning a null result (argument
construction succeeding), the fatal path is taken AND the durations
component at the fatal point already contains the accumulated
contribution of `ts_end - ts_start`: the accumulation runs before the
observer is invoked and is not rolled back on observer failure. -/
theorem C10_accumulate_before_observer (env : Env) (info : HPyTraceInfo)
    (eff : EffState) (id g : Nat) (ts_start ts_end : HPyTime)
    (hobs : info.on_exit_func = some g)
    (hname : env.name_ok = true) (htuple : env.tuple_ok = true)
    (hfail : env.call_result g
      (HPyVal.vtuple [HPyVal.vstr (env.get_func_name id)]) = none) :
    (hpy_trace_on_exit env info eff id 0 0 ts_start ts_end).1 =
      Outcome.fatal "error when executing on-exit trace function" ∧
    (hpy_trace_on_exit env info eff id 0 0 ts_start ts_end).2.1.durations =
      info.durations.set id
        (update_duration (info.durations.getD id ⟨0, 0⟩) ts_start ts_end) := by
  unfold hpy_trace_on_exit
  constructor <;>
    simp [CLOCK_FAILED, hobs,
      invoke_trace_func_ok env eff id g _ hname htuple, hfail]

/-- C10 witness: instantiation of `C10_accumulate_before_observer` with
the on-exit observer (callable 6) installed in the always-null-result
environment. -/
theorem C10_witness :
    (hpy_trace_on_exit env_obs_fail info_exit_obs eff0 0 0 0 ⟨0, 0⟩ ⟨2, 5⟩).1 =
      Outcome.fatal "error when executing on-exit trace function" ∧
    (hpy_trace_on_exit env_obs_fail info_exit_obs eff0 0 0 0 ⟨0, 0⟩ ⟨2, 5⟩).2.1.durations =
      info_exit_obs.durations.set 0
        (update_duration (info_exit_obs.durations.getD 0 ⟨0, 0⟩) ⟨0, 0⟩ ⟨2, 5⟩) :=
  C10_accumulate_before_observer env_obs_fail info_exit_obs eff0 0 6 ⟨0, 0⟩ ⟨2, 5⟩
    rfl rfl rfl rfl
